import Mathlib

/-!
Verification development for the DIDComm mediator dispatch core
(app/core/redis.py and app/routers/mediator.py).

The Python code is embedded shallowly: stateful operations become pure
functions over explicit state records, the nondeterministic environment
(broker liveness, arriving pub/sub frames, wall clock readings, random
shuffles) is passed in as explicit parameters or event scripts, and
Python exceptions become explicit outcome constructors.
-/

namespace Mediator

/-- Association-list lookup, modelling dict / memcached `get`. -/
def alookup (l : List (String × α)) (k : String) : Option α :=
  match l with
  | [] => none
  | (k', v) :: rest => if k' = k then some v else alookup rest k

/-- Association-list insert/overwrite, modelling dict / memcached `set`. -/
def aset (l : List (String × α)) (k : String) (v : α) : List (String × α) :=
  match l with
  | [] => [(k, v)]
  | (k', v') :: rest => if k' = k then (k, v) :: rest else (k', v') :: aset rest k v

/-- Association-list delete, modelling dict / memcached `delete`: every
binding of the key is removed (a dict holds at most one). -/
def adel : List (String × α) → String → List (String × α)
  | [], _ => []
  | (k', v') :: rest, k =>
    if k' = k then adel rest k else (k', v') :: adel rest k

/-- Python truthiness of an optional string: `None` and the empty string
are falsy, every other string is truthy. -/
def truthyStr : Option String → Bool
  | none => false
  | some s => !(s = "")

/-- A persisted endpoint row, after the spec data model (section 3) and the
`endpoints` table plus the agent join used by the HTTP layer. -/
structure EndpointRow where
  uid : String
  verkey : Option String
  agent_id : Option String
  redis_pub_sub : Option String
  fcm_device_id : Option String
deriving DecidableEq, Repr

/-- Mutable state visible to the dispatcher: the memcached endpoint
directory cache (uid to address), the channel cache keys (addresses with a
live cached ChannelPair), and the persistent endpoint rows keyed by uid. -/
structure MediatorState where
  epCache : List (String × String)
  chCache : List String
  db : List (String × EndpointRow)
deriving DecidableEq, Repr

/-- Message type constant from app/core/redis.py line 31. -/
def PUSH_MSG_TYPE : String := "https://didcomm.org/indilynx/1.0/push"

/-- Message type constant from app/core/redis.py line 32. -/
def ACK_MSG_TYPE : String := "https://didcomm.org/indilynx/1.0/ack"

/-!
## EndpointDirectory resolve
`RedisPush.__get_session_channel_address` (app/core/redis.py lines 250-263).

The embedding follows the Python control flow statement by statement.
Note the function body has no final `return`: when the cache holds a
truthy address and `ignore_cache` is false, neither `if` branch runs and
the Python function falls off the end, returning `None`.
-/

/-- Embedding of `RedisPush.__get_session_channel_address`.
Returns the resolved address together with the updated state. -/
def getSessionChannelAddress (st : MediatorState) (uid : String)
    (ignoreCache : Bool) : Option String × MediatorState :=
  let address := alookup st.epCache uid
  let st1 := if truthyStr address && ignoreCache then
      { st with epCache := adel st.epCache uid } else st
  if !(truthyStr address) || ignoreCache then
    match alookup st1.db uid with
    | some ep =>
      match ep.redis_pub_sub with
      | some a =>
        if a = "" then (some a, st1)
        else (some a, { st1 with epCache := aset st1.epCache uid a })
      | none => (none, st1)
    | none => (none, st1)
  else
    (none, st1)

/-!
## BrokerRegistry select
`choice_server_address` (app/core/redis.py lines 35-49).

Randomness is made explicit: the function is parameterised by the
post-shuffle ordering `shuffled` of the configured server list, and by the
liveness oracle `live` standing for `AsyncRedisChannel.check_address`.
-/

/-- Prefix a bare host with the redis scheme, as in line 44. -/
def addrOf (item : String) : String := "redis://" ++ item

/-- If the pattern is a leading sequence of the character list, return the
remainder after it; otherwise nothing. Helper for python `str.replace`. -/
def stripSeq : List Char → List Char → Option (List Char)
  | [], cs => some cs
  | _ :: _, [] => none
  | p :: ps, c :: cs => if p = c then stripSeq ps cs else none

/-- Left-to-right replacement of non-overlapping occurrences of a pattern,
python `str.replace` semantics, written with a fuel argument so it is
structurally recursive (fuel is instantiated with the list length, which
bounds the number of steps). -/
def replaceAllAux (p r : List Char) : Nat → List Char → List Char
  | 0, cs => cs
  | _ + 1, [] => []
  | fuel + 1, c :: cs =>
    match stripSeq p (c :: cs) with
    | some rest => r ++ replaceAllAux p r fuel rest
    | none => c :: replaceAllAux p r fuel cs

/-- Python `s.replace(pattern, repl)` for a non-empty pattern. -/
def strReplace (s pattern repl : String) : String :=
  match pattern.toList with
  | [] => s
  | p :: ps => ⟨replaceAllAux (p :: ps) repl.toList s.toList.length s.toList⟩

/-- Lines 36-37: if `unwanted` is truthy, strip every occurrence of the
scheme from it; a falsy `unwanted` stays out of play. -/
def stripUnwanted : Option String → Option String
  | none => none
  | some u => if u = "" then none else some (strReplace u "redis://" "")

/-- Lines 40-42: when the stripped unwanted value is truthy and occurs in
the shuffled list, remove every occurrence and append it at the tail. -/
def reorderUnwanted (unw : Option String) (items : List String) : List String :=
  match unw with
  | none => items
  | some u => if !(u = "") && items.contains u then
      items.filter (fun i => !(i = u)) ++ [u]
    else items

/-- Lines 43-47: probe the candidates in order, returning the first whose
prefixed address passes the liveness check. -/
def firstLive (live : String → Bool) : List String → Option String
  | [] => none
  | item :: rest =>
    if live (addrOf item) then some (addrOf item) else firstLive live rest

/-- Embedding of `choice_server_address`: `none` models raising
`NoOneReachableRedisServer` (lines 48-49). -/
def choiceServerAddress (shuffled : List String) (live : String → Bool)
    (unwanted : Option String) : Option String :=
  firstLive live (reorderUnwanted (stripUnwanted unwanted) shuffled)

/-!
## BrokerChannel read
`AsyncRedisChannel.read` (app/core/redis.py lines 108-123) together with
the `channel()` context manager (lines 93-106).

The frames and transport events a read observes are given as a script.
Every outcome also reports whether the channel tore itself down
(`__terminate`, lines 166-170) while producing that outcome: `read`
terminates on a close frame (line 117), and the `channel()` context
manager terminates on `RedisConnectionError` before re-raising
(lines 104-106).
-/

/-- A pub/sub frame as decoded by `get_json`: a `kind` discriminator and a
body payload. -/
structure Packet (α : Type) where
  kind : String
  body : α
deriving DecidableEq, Repr

/-- One event observed by an `asyncio.wait_for`-guarded read: a frame
arrives, the deadline elapses, or the transport fails. -/
inductive ReadStep (α : Type)
  | recv (p : Packet α)
  | timeout
  | connErr
deriving DecidableEq, Repr

/-- Result of `AsyncRedisChannel.read`: a returned `(ok, body)` pair, or
one of the two raised exceptions. -/
inductive ReadOutcome (α : Type)
  | result (ok : Bool) (body : Option α)
  | timeoutError
  | connectionError
deriving DecidableEq, Repr

/-- Embedding of `AsyncRedisChannel.read`. The boolean reports whether the
channel self-terminated while producing the outcome. An empty script means
no frame ever arrives, so the deadline elapses. -/
def channelRead : List (ReadStep α) → ReadOutcome α × Bool
  | [] => (.timeoutError, false)
  | .recv p :: rest =>
    if p.kind = "data" then (.result true (some p.body), false)
    else if p.kind = "close" then (.result false none, true)
    else channelRead rest
  | .timeout :: _ => (.timeoutError, false)
  | .connErr :: _ => (.connectionError, true)

/-!
## PushDispatcher internals
`RedisPush.push` (lines 184-193) and the ACK wait loop of
`RedisPush.__push_internal` (lines 212-224).
-/

/-- The fields of an ACK-side response the wait loop inspects:
`response.get('@type')`, `response['@id']` and `response['status']`.
`status` is `some b` when the value is the Python boolean `b`, and `none`
when it is absent or any non-boolean value (the code tests `is True`). -/
structure AckResponse where
  typ : Option String
  id : String
  status : Option Bool
deriving DecidableEq, Repr

/-- Line 218 matching condition on a received response. -/
def ackMatches (reqId : String) (r : AckResponse) : Bool :=
  (r.typ == some ACK_MSG_TYPE) && (r.id == reqId)

/-- One iteration of the wait loop observes: a response delivered on the
reverse channel, the reverse channel closing (read returned `(False, _)`),
the read deadline elapsing, or a transport failure. -/
inductive WaitEvent
  | got (r : AckResponse)
  | chClosed
  | rwTimeout
  | connErr
deriving DecidableEq, Repr

/-- Outcome of `__push_internal` after a successful publish: a returned
boolean, or one of the two propagated exceptions. -/
inductive WaitOutcome
  | res (b : Bool)
  | timeoutErr
  | connErr
deriving DecidableEq, Repr

/-- Embedding of the ACK wait loop (lines 213-224). Each script entry
carries the wall-clock value observed at the next loop-condition check
after that event. The loop runs while `now <= expire_at`; reads use the
remaining-time delta, so an exhausted script is a read that never sees a
frame and times out. Falling out of the while loop returns False
(line 224). -/
def ackLoop (expireAt : Nat) (reqId : String) :
    Nat → List (Nat × WaitEvent) → WaitOutcome
  | now, [] => if now ≤ expireAt then .timeoutErr else .res false
  | now, (t, ev) :: rest =>
    if now ≤ expireAt then
      match ev with
      | .got r =>
        if ackMatches reqId r then .res (r.status == some true)
        else ackLoop expireAt reqId t rest
      | .chClosed => .res false
      | .rwTimeout => .timeoutErr
      | .connErr => .connErr
    else .res false

/-- A script cell saying which matched ACK with a true status exists in it:
used to state that the loop only succeeds through such an event. -/
def hasTrueAck (reqId : String) (events : List (Nat × WaitEvent)) : Prop :=
  ∃ t r, (t, WaitEvent.got r) ∈ events ∧ ackMatches reqId r = true ∧
    r.status = some true

/-- Outcome of one `__push_internal` attempt as observed by `push`:
a normal return, or one of the two exceptions caught at lines 190-193. -/
inductive AttemptOutcome
  | ok (b : Bool)
  | connErr
  | rwTimeout
deriving DecidableEq, Repr

/-- What `push` does: return a boolean, fall off the `for` loop returning
Python `None`, or re-raise `RedisConnectionError`. -/
inductive PushReturn
  | value (b : Bool)
  | noneRet
  | raisedConn
deriving DecidableEq, Repr

/-- The `for cnt in range(2)` loop of `push` (lines 186-193), driven by a
script giving the outcome of each executed `__push_internal` attempt. The
second component counts attempts actually executed. -/
def pushLoop : Nat → List AttemptOutcome → PushReturn × Nat
  | 0, _ => (.noneRet, 0)
  | _ + 1, [] => (.noneRet, 0)
  | _ + 1, o :: _ =>
    match o with
    | .ok b => (.value b, 1)
    | .connErr => (.raisedConn, 1)
    | .rwTimeout => (.value false, 1)

/-- Embedding of `RedisPush.push` after the `expire_at` computation: every
branch of the loop body exits on its first iteration, so only the head
outcome is consumed. -/
def pushAttempts (outcomes : List AttemptOutcome) : PushReturn × Nat :=
  pushLoop 2 outcomes

/-- Line 185: the absolute deadline computed by `push`. -/
def pushExpireAt (now ttl : Nat) : Nat := now + ttl

/-- The PushRequest envelope built at lines 202-208. -/
structure PushRequestEnv where
  id : String
  typ : String
  reverse_channel : String
  expire_at : Nat
  message : String
deriving DecidableEq, Repr

/-- Embedding of the envelope construction (lines 202-208). The published
field is written as `expire_at.utcnow().timestamp()`: `utcnow` is a
classmethod, so the instance value `expireAtVar` is ignored and the field
holds the wall clock at envelope-build time, `clockAtBuild`. -/
def mkPushRequest (idv reverseAddr : String) (expireAtVar clockAtBuild : Nat)
    (msg : String) : PushRequestEnv :=
  { id := idv
    typ := PUSH_MSG_TYPE
    reverse_channel := reverseAddr
    expire_at := clockAtBuild
    message := msg }

/-!
## Cache invalidation on disconnect
`RedisPush.__clean_on_disconnect` (app/core/redis.py lines 265-273).
-/

/-- Embedding of the `except RedisConnectionError` cleanup: delete the
endpoint-directory cache entry for the uid and, when present, the channel
cache entry for the channel address, then re-raise. -/
def cleanOnDisconnect (st : MediatorState) (uid chAddr : String) :
    MediatorState :=
  { st with
    epCache := adel st.epCache uid
    chCache := st.chCache.filter (fun a => !(a = chAddr)) }

/-!
## HTTP endpoint handler
`endpoint` (app/routers/mediator.py lines 67-140).

Two helpers called there live in app/utils.py and app/core/repo.py, which
are not part of the sources; they are modelled from the spec where noted.
-/

/-- The segment after the last slash, python `address.split('/')[-1]`
(the channel-name convention of redis.py line 62 and spec section 6). -/
def lastSegAux (acc : List Char) : List Char → List Char
  | [] => acc
  | c :: cs => if c = '/' then lastSegAux [] cs else lastSegAux (acc ++ [c]) cs

/-- Channel name of an address: the path tail after the last `/`. -/
def channelNameOf (address : String) : String := ⟨lastSegAux [] address.toList⟩

/-- Modelled from the spec: `change_redis_server` of app/utils.py is not in
the sources. Spec section 4.6 step 7 rebinds the endpoint address to
`<new-broker>/<old-name>`, and section 6 defines the channel name as the
path tail after the last `/`. -/
def changeRedisServer (old newServer : String) : String :=
  newServer ++ "/" ++ channelNameOf old

/-- Modelled from the spec: `ensure_endpoint_exists` of app/db/crud.py /
app/core/repo.py is not in the sources. Spec section 4.3 `rebind`
persists the row for the uid with the supplied fields (an upsert keyed by
uid, as the crud tests exercise); no other row is touched. -/
def ensureEndpointExists (db : List (String × EndpointRow)) (uid : String)
    (fields : EndpointRow) : List (String × EndpointRow) :=
  aset db uid fields

/-- Accepted media types (app/routers/mediator.py lines 28-31). -/
def EXPECTED_CONTENT_TYPES : List String :=
  ["application/ssi-agent-wire", "application/json",
   "application/didcomm-envelope-enc", "application/didcomm-encrypted+json"]

/-- HTTP responses the endpoint handler can produce:
202, 404, 410, 421, 415. -/
inductive HttpResponse
  | accepted
  | notFound
  | gone
  | misdirected
  | unsupportedMedia
deriving DecidableEq, Repr

/-- Observable side effects of one endpoint POST, in program order. -/
inductive Effect
  | dirRead (uid : String)
  | routingRead (uid : String)
  | pushAttempt (uid : String)
  | rowUpsert (uid : String)
  | fcmSend (device : String)
deriving DecidableEq, Repr

/-- How the `pushes.push(...)` call at line 99 ends, as observed by the
handler: a returned boolean, or `RedisConnectionError` propagating out of
an operation on the forward channel with address `chAddr` (in which case
`__clean_on_disconnect` has already run for that address). -/
inductive PushSignal
  | done (success : Bool)
  | connError (chAddr : String)
deriving DecidableEq, Repr

/-- Environment of one request: the shuffle and liveness oracle used by
`choice_server_address` during rotation, the outcome of the push call, and
the Firebase configuration and send outcome (`none` models an exception
inside `firebase.send`). -/
structure HandlerEnv where
  shuffled : List String
  live : String → Bool
  push : PushSignal
  fcmEnabled : Bool
  fcmSend : Option Bool

/-- Lines 104-113: the broker-rotation recovery block. Every exception in
it is muted; `choice_server_address()` is called with no argument. -/
def rotateBroker (env : HandlerEnv) (uid : String) (row : EndpointRow)
    (st : MediatorState) : MediatorState × List Effect :=
  match choiceServerAddress env.shuffled env.live none with
  | none => (st, [])
  | some srv =>
    match row.redis_pub_sub with
    | none => (st, [])
    | some old =>
      let fields := { row with redis_pub_sub := some (changeRedisServer old srv) }
      ({ st with db := ensureEndpointExists st.db uid fields }, [.rowUpsert uid])

/-- Lines 114-138: the tail of the handler, from `if success:` on. -/
def fcmFallback (env : HandlerEnv) (row : EndpointRow) (st : MediatorState)
    (fx : List Effect) (success : Bool) :
    HttpResponse × MediatorState × List Effect :=
  if success then (.accepted, st, fx)
  else
    match row.fcm_device_id with
    | some dev =>
      if dev = "" then (.gone, st, fx)
      else if env.fcmEnabled then
        match env.fcmSend with
        | some true => (.accepted, st, fx ++ [.fcmSend dev])
        | _ => (.gone, st, fx ++ [.fcmSend dev])
      else (.misdirected, st, fx)
    | none => (.gone, st, fx)

/-- Embedding of the `endpoint` POST handler (lines 67-140): the
content-type gate, the directory reads, the push call, the
`RedisConnectionError` recovery block and the FCM fallback. -/
def endpointHandler (env : HandlerEnv) (contentType uid : String)
    (st : MediatorState) : HttpResponse × MediatorState × List Effect :=
  if !(EXPECTED_CONTENT_TYPES.contains contentType) then
    (.unsupportedMedia, st, [])
  else
    let fx0 : List Effect := [.dirRead uid, .routingRead uid]
    match alookup st.db uid with
    | none => (.notFound, st, fx0)
    | some row =>
      match env.push with
      | .done success =>
        fcmFallback env row st (fx0 ++ [.pushAttempt uid]) success
      | .connError chAddr =>
        let st1 := cleanOnDisconnect st uid chAddr
        let (st2, fx1) := rotateBroker env uid row st1
        fcmFallback env row st2 (fx0 ++ [.pushAttempt uid] ++ fx1) false

/-!
## PullListener
`RedisPull.Listener.get_one` (app/core/redis.py lines 330-347).
-/

/-- An inbound payload as `get_one` inspects it. -/
structure PullPayload where
  typ : Option String
  id : String
  message : String
  expire_at : Nat
  reverse_channel : String
deriving DecidableEq, Repr

/-- One `channel.read(timeout=None)` outcome inside `get_one`: a payload
delivered, the channel returning `(False, None)` on the close sentinel, or
`RedisConnectionError` raised. With `timeout=None` the read cannot time
out. -/
inductive PullEvent
  | msg (p : PullPayload)
  | closed
  | connErr
deriving DecidableEq, Repr

/-- The Request object built at lines 336-342. -/
structure PullRequest where
  id : String
  message : String
  expire_at : Nat
  reverse_channel : String
deriving DecidableEq, Repr

/-- Request construction from a payload (lines 336-342). -/
def mkPullRequest (p : PullPayload) : PullRequest :=
  { id := p.id
    message := p.message
    expire_at := p.expire_at
    reverse_channel := p.reverse_channel }

/-- Embedding of `Listener.get_one`: `none` means the loop never returns
(the script ran out while it kept waiting). -/
def getOne : List PullEvent → Option (Bool × Option PullRequest)
  | [] => none
  | .msg p :: rest =>
    if p.typ == some PUSH_MSG_TYPE then some (true, some (mkPullRequest p))
    else getOne rest
  | .closed :: _ => some (false, none)
  | .connErr :: _ => some (false, none)

/-!
## Association-list lemmas
-/

theorem alookup_aset_self (l : List (String × α)) (k : String) (v : α) :
    alookup (aset l k v) k = some v := by
  induction l with
  | nil => simp [aset, alookup]
  | cons h t ih =>
    obtain ⟨k', v'⟩ := h
    by_cases hk : k' = k
    · subst hk; simp [aset, alookup]
    · simp [aset, alookup, hk, ih]

theorem alookup_aset_other (l : List (String × α)) (k k' : String) (v : α)
    (h : ¬ k' = k) : alookup (aset l k v) k' = alookup l k' := by
  have hne : ¬ k = k' := fun hh => h hh.symm
  induction l with
  | nil => simp [aset, alookup, hne]
  | cons hd t ih =>
    obtain ⟨k0, v0⟩ := hd
    by_cases hk : k0 = k
    · subst hk
      simp [aset, alookup, hne]
    · simp only [aset, if_neg hk]
      by_cases hk' : k0 = k'
      · simp [alookup, hk']
      · simp [alookup, hk', ih]

theorem alookup_adel_self (l : List (String × α)) (k : String) :
    alookup (adel l k) k = none := by
  induction l with
  | nil => rfl
  | cons hd t ih =>
    obtain ⟨k0, v0⟩ := hd
    by_cases hk : k0 = k
    · simpa [adel, hk] using ih
    · simpa [adel, alookup, hk] using ih

theorem alookup_adel_other (l : List (String × α)) (k k' : String)
    (h : ¬ k' = k) : alookup (adel l k) k' = alookup l k' := by
  induction l with
  | nil => rfl
  | cons hd t ih =>
    obtain ⟨k0, v0⟩ := hd
    by_cases hk : k0 = k
    · subst hk
      have hne : ¬ k0 = k' := fun hh => h hh.symm
      simpa [adel, alookup, hne] using ih
    · by_cases hk' : k0 = k'
      · subst hk'
        simp [adel, alookup, hk]
      · simpa [adel, alookup, hk, hk'] using ih

/-!
## Claims
-/

/-- C1: the claim states that `resolve(uid, ignore_cache=false)` returns
the cached address on a cache hit. Evaluating the embedded
`__get_session_channel_address` on a state whose cache holds an address
for the uid, with `ignore_cache = false`, yields `none` instead: on this
path neither `if` branch of the Python body runs and the function falls
off its end without a `return`. -/
theorem c1_resolve_cache_hit_returns_none :
    (getSessionChannelAddress
      ⟨[("e1", "redis://redis1/chan")], [],
       [("e1", ⟨"e1", some "VK", none, some "redis://redis1/chan", none⟩)]⟩
      "e1" false).1 = none ∧
    alookup (MediatorState.epCache
      ⟨[("e1", "redis://redis1/chan")], [],
       [("e1", ⟨"e1", some "VK", none, some "redis://redis1/chan", none⟩)]⟩)
      "e1" = some "redis://redis1/chan" := by
  exact ⟨rfl, rfl⟩

/-- C2: the claim states that the published envelope's `expire_at` field
equals the wall clock at the start of the call plus the ttl. In the code
the field is written as `expire_at.utcnow().timestamp()`; `utcnow` is a
classmethod, so the computed deadline is dropped and the field holds the
clock at envelope-build time. With the call starting at time 100, ttl 5
and the envelope built at time 100, the published field is 100, not the
deadline 105 computed at line 185. -/
theorem c2_expire_at_field_is_build_clock :
    (mkPushRequest "id0" "redis://r/c" (pushExpireAt 100 5) 100 "m").expire_at
      = 100 ∧
    pushExpireAt 100 5 = 105 ∧
    ¬ (mkPushRequest "id0" "redis://r/c" (pushExpireAt 100 5) 100 "m").expire_at
      = pushExpireAt 100 5 := by
  decide

/-- C5: `push` attempts dispatch at most twice (the loop bound is 2 and in
fact every branch of the body exits on the first attempt); an attempt
raising `RedisConnectionError` is re-raised to the caller, and an attempt
raising `ReadWriteTimeoutError` makes `push` return false. -/
theorem c5_push_attempt_bound_and_error_paths :
    ∀ (o : AttemptOutcome) (rest : List AttemptOutcome),
      (pushAttempts (o :: rest)).2 = 1 ∧
      (pushAttempts (o :: rest)).2 ≤ 2 ∧
      (o = .connErr → (pushAttempts (o :: rest)).1 = .raisedConn) ∧
      (o = .rwTimeout → (pushAttempts (o :: rest)).1 = .value false) := by
  intro o rest
  cases o <;> simp [pushAttempts, pushLoop]

/-- Witness for C5 at a concrete script: a connection error on the first
attempt is re-raised after exactly one attempt. -/
theorem c5_witness :
    (pushAttempts [AttemptOutcome.connErr]).1 = .raisedConn ∧
    (pushAttempts [AttemptOutcome.connErr]).2 = 1 :=
  ⟨(c5_push_attempt_bound_and_error_paths .connErr []).2.2.1 rfl,
   (c5_push_attempt_bound_and_error_paths .connErr []).1⟩

/-- C7: `read` returns `(true, body)` on the next frame of kind `data`;
on a `close` frame it tears the channel down and returns `(false, none)`;
it raises `ReadWriteTimeoutError` when the deadline elapses with no frame;
on `RedisConnectionError` the channel self-terminates before the error
propagates; frames of any other kind are skipped. -/
theorem c7_channel_read_contract :
    ∀ (b : String) (k : String) (rest : List (ReadStep String)),
      channelRead (.recv ⟨"data", b⟩ :: rest) = (.result true (some b), false) ∧
      channelRead (.recv ⟨"close", b⟩ :: rest) = (.result false none, true) ∧
      channelRead (.timeout :: rest) = (.timeoutError, false) ∧
      channelRead (.connErr :: rest) = (.connectionError, true) ∧
      channelRead ([] : List (ReadStep String)) = (.timeoutError, false) ∧
      (¬ k = "data" → ¬ k = "close" →
        channelRead (.recv ⟨k, b⟩ :: rest) = channelRead rest) := by
  intro b k rest
  refine ⟨?_, ?_, rfl, rfl, rfl, ?_⟩
  · simp [channelRead]
  · simp [channelRead]
  · intro h1 h2
    simp [channelRead, h1, h2]

/-- Witness for C7 at a concrete script: a frame of unknown kind is
skipped and the read continues on the remaining script. -/
theorem c7_witness :
    channelRead (α := String) [.recv ⟨"ping", "x"⟩] =
      channelRead (α := String) [] :=
  (c7_channel_read_contract "x" "ping" []).2.2.2.2.2 (by decide) (by decide)

/-- C10: in `Listener.get_one` a `RedisConnectionError` while waiting is
not propagated: the result is `(false, none)`, identical to the result on
the cooperative close sentinel, so the consumer cannot distinguish a
transport failure from a clean close. -/
theorem c10_pull_connerror_indistinguishable_from_close :
    ∀ (rest rest2 : List PullEvent),
      getOne (.connErr :: rest) = some (false, none) ∧
      getOne (.closed :: rest2) = some (false, none) ∧
      getOne (.connErr :: rest) = getOne (.closed :: rest2) := by
  intro rest rest2
  exact ⟨rfl, rfl, rfl⟩

/-!
## Handler helper lemmas
-/

/-- The FCM fallback tail of the handler never mutates the state. -/
theorem fcmFallback_keeps_state :
    ∀ (env : HandlerEnv) (row : EndpointRow) (st : MediatorState)
      (fx : List Effect) (success : Bool),
      (fcmFallback env row st fx success).2.1 = st := by
  intro env row st fx success
  cases success
  · cases hfcm : row.fcm_device_id with
    | none => simp [fcmFallback, hfcm]
    | some dev =>
      by_cases hd : dev = ""
      · simp [fcmFallback, hfcm, hd]
      · by_cases he : env.fcmEnabled
        · cases hs : env.fcmSend with
          | none => simp [fcmFallback, hfcm, hd, he, hs]
          | some b => cases b <;> simp [fcmFallback, hfcm, hd, he, hs]
        · simp [fcmFallback, hfcm, hd, he]
  · simp [fcmFallback]

/-- Reduction of the endpoint handler on the `RedisConnectionError` path:
the caches for the endpoint are invalidated, the persisted row is rewritten
with the rebound address, and control flows into the FCM fallback with
`success = False`. -/
theorem endpointHandler_connError_reduce :
    ∀ (env : HandlerEnv) (ct uid chAddr : String) (st : MediatorState)
      (row : EndpointRow) (old srv : String),
      env.push = .connError chAddr →
      EXPECTED_CONTENT_TYPES.contains ct = true →
      alookup st.db uid = some row →
      row.redis_pub_sub = some old →
      choiceServerAddress env.shuffled env.live none = some srv →
      endpointHandler env ct uid st =
        fcmFallback env row
          { st with
            epCache := adel st.epCache uid
            chCache := st.chCache.filter (fun a => !(a = chAddr))
            db := aset st.db uid
              ⟨row.uid, row.verkey, row.agent_id,
               some (changeRedisServer old srv), row.fcm_device_id⟩ }
          ([.dirRead uid, .routingRead uid] ++ [.pushAttempt uid] ++
            [.rowUpsert uid]) false := by
  intro env ct uid chAddr st row old srv hpush hct hrow haddr hsel
  obtain ⟨ru, rv, ra, rp, rf⟩ := row
  simp only at haddr
  subst haddr
  simp only [endpointHandler, hct, Bool.not_true, Bool.false_eq_true,
    if_false, hrow, hpush, cleanOnDisconnect, rotateBroker, hsel,
    ensureEndpointExists]

/-!
## Handler claims
-/

/-- C8: a POST whose content type is outside the accepted set is answered
415 before any other statement runs: the state is unchanged and the effect
trace is empty (no directory read or write, no publish, no row
mutation). -/
theorem c8_unsupported_content_type_no_side_effects :
    ∀ (env : HandlerEnv) (ct uid : String) (st : MediatorState),
      ¬ ct ∈ EXPECTED_CONTENT_TYPES →
      endpointHandler env ct uid st = (.unsupportedMedia, st, []) := by
  intro env ct uid st h
  have hb : EXPECTED_CONTENT_TYPES.contains ct = false := by
    simpa using h
  simp only [endpointHandler, hb, Bool.not_false, if_true]

/-- Witness for C8 on the content type of test scenario S3. -/
theorem c8_witness :
    endpointHandler ⟨[], fun _ => false, .done false, false, none⟩
      "application/invalid-type" "e1" ⟨[], [], []⟩ =
      (.unsupportedMedia, ⟨[], [], []⟩, []) :=
  c8_unsupported_content_type_no_side_effects _ _ _ _ (by decide)

/-- C9: when the handler rebinds an endpoint after broker rotation, the
persisted row for that uid keeps its uid, verkey, agent id and FCM device
id and only the pub/sub address field changes; the row of every other uid
is untouched. -/
theorem c9_rebind_mutates_only_pub_sub_address :
    ∀ (env : HandlerEnv) (ct uid chAddr : String) (st : MediatorState)
      (row : EndpointRow) (old srv : String),
      env.push = .connError chAddr →
      EXPECTED_CONTENT_TYPES.contains ct = true →
      alookup st.db uid = some row →
      row.redis_pub_sub = some old →
      choiceServerAddress env.shuffled env.live none = some srv →
      alookup (endpointHandler env ct uid st).2.1.db uid =
        some ⟨row.uid, row.verkey, row.agent_id,
              some (changeRedisServer old srv), row.fcm_device_id⟩ ∧
      (∀ u, ¬ u = uid →
        alookup (endpointHandler env ct uid st).2.1.db u = alookup st.db u) := by
  intro env ct uid chAddr st row old srv hpush hct hrow haddr hsel
  have hred := endpointHandler_connError_reduce env ct uid chAddr st row
    old srv hpush hct hrow haddr hsel
  rw [hred, fcmFallback_keeps_state]
  constructor
  · simpa using alookup_aset_self st.db uid
      ⟨row.uid, row.verkey, row.agent_id,
       some (changeRedisServer old srv), row.fcm_device_id⟩
  · intro u hu
    simpa using alookup_aset_other st.db uid u
      ⟨row.uid, row.verkey, row.agent_id,
       some (changeRedisServer old srv), row.fcm_device_id⟩ hu

/-- Witness for C9 at a concrete two-row store: the row of `e1` is rebound
to the freshly selected broker keeping every other field, and the row of
`e2` is untouched. -/
theorem c9_witness :
    alookup (endpointHandler
      ⟨["redis1"], fun _ => true, .connError "redis://redis0/chan", false, none⟩
      "application/json" "e1"
      ⟨[("e1", "redis://redis0/chan")], ["redis://redis0/chan"],
       [("e1", ⟨"e1", some "VK", some "AG", some "redis://redis0/chan", none⟩),
        ("e2", ⟨"e2", none, none, some "redis://redis2/x", none⟩)]⟩).2.1.db
      "e1" =
      some ⟨"e1", some "VK", some "AG",
            some (changeRedisServer "redis://redis0/chan" "redis://redis1"),
            none⟩ ∧
    alookup (endpointHandler
      ⟨["redis1"], fun _ => true, .connError "redis://redis0/chan", false, none⟩
      "application/json" "e1"
      ⟨[("e1", "redis://redis0/chan")], ["redis://redis0/chan"],
       [("e1", ⟨"e1", some "VK", some "AG", some "redis://redis0/chan", none⟩),
        ("e2", ⟨"e2", none, none, some "redis://redis2/x", none⟩)]⟩).2.1.db
      "e2" = some ⟨"e2", none, none, some "redis://redis2/x", none⟩ := by
  have h := c9_rebind_mutates_only_pub_sub_address
    ⟨["redis1"], fun _ => true, .connError "redis://redis0/chan", false, none⟩
    "application/json" "e1" "redis://redis0/chan"
    ⟨[("e1", "redis://redis0/chan")], ["redis://redis0/chan"],
     [("e1", ⟨"e1", some "VK", some "AG", some "redis://redis0/chan", none⟩),
      ("e2", ⟨"e2", none, none, some "redis://redis2/x", none⟩)]⟩
    ⟨"e1", some "VK", some "AG", some "redis://redis0/chan", none⟩
    "redis://redis0/chan" "redis://redis1"
    (by decide) (by decide) (by decide) (by decide) (by decide)
  refine ⟨h.1, ?_⟩
  rw [h.2 "e2" (by decide)]
  decide

/-- C3 counterexample: the claim says the rotation selects the new broker
with the unreachable broker passed as the unwanted candidate. At a
concrete input with brokers `redis1, redis2`, identity shuffle, every
probe passing and current broker `redis1`, the handler rebinds `e1` to
`redis://redis1/chan` - the same unreachable broker, because the code
calls `choice_server_address()` with no argument - whereas selection with
`unwanted = redis://redis1` yields `redis://redis2`, so the claimed rebind
target `redis://redis2/chan` differs from what the code persists. -/
theorem c3_counterexample :
    alookup (endpointHandler
      ⟨["redis1", "redis2"], fun _ => true,
       .connError "redis://redis1/chan", false, none⟩
      "application/json" "e1"
      ⟨[("e1", "redis://redis1/chan")], ["redis://redis1/chan"],
       [("e1", ⟨"e1", some "VK", none, some "redis://redis1/chan", none⟩)]⟩).2.1.db
      "e1" =
      some ⟨"e1", some "VK", none, some "redis://redis1/chan", none⟩ ∧
    choiceServerAddress ["redis1", "redis2"] (fun _ => true)
      (some "redis://redis1") = some "redis://redis2" ∧
    ¬ ("redis://redis1/chan" = "redis://redis2/chan") := by
  exact ⟨by decide, by decide, by decide⟩

/-- C3 (amended): when push raises the broker connection error, the
handler selects a new broker with no unwanted candidate (so the current
unreachable broker may be selected again), rebinds the endpoint's
persisted address to the selected broker keeping the old channel name,
and, the endpoint having no FCM device id, answers 410 Gone; the
dispatcher has invalidated both the endpoint-directory cache entry and the
channel-cache entry for the endpoint before propagating. -/
theorem c3_rotation_amended :
    ∀ (env : HandlerEnv) (ct uid chAddr : String) (st : MediatorState)
      (row : EndpointRow) (old srv : String),
      env.push = .connError chAddr →
      EXPECTED_CONTENT_TYPES.contains ct = true →
      alookup st.db uid = some row →
      row.redis_pub_sub = some old →
      row.fcm_device_id = none →
      choiceServerAddress env.shuffled env.live none = some srv →
      (endpointHandler env ct uid st).1 = .gone ∧
      alookup (endpointHandler env ct uid st).2.1.db uid =
        some ⟨row.uid, row.verkey, row.agent_id,
              some (changeRedisServer old srv), row.fcm_device_id⟩ ∧
      alookup (endpointHandler env ct uid st).2.1.epCache uid = none ∧
      ¬ chAddr ∈ (endpointHandler env ct uid st).2.1.chCache := by
  intro env ct uid chAddr st row old srv hpush hct hrow haddr hfcm hsel
  have hred := endpointHandler_connError_reduce env ct uid chAddr st row
    old srv hpush hct hrow haddr hsel
  have hstate := fcmFallback_keeps_state env row
    { st with
      epCache := adel st.epCache uid
      chCache := st.chCache.filter (fun a => !(a = chAddr))
      db := aset st.db uid
        ⟨row.uid, row.verkey, row.agent_id,
         some (changeRedisServer old srv), row.fcm_device_id⟩ }
    ([.dirRead uid, .routingRead uid] ++ [.pushAttempt uid] ++
      [.rowUpsert uid]) false
  refine ⟨?_, ?_, ?_, ?_⟩
  · rw [hred]
    simp [fcmFallback, hfcm]
  · rw [hred, hstate]
    simpa using alookup_aset_self st.db uid
      ⟨row.uid, row.verkey, row.agent_id,
       some (changeRedisServer old srv), row.fcm_device_id⟩
  · rw [hred, hstate]
    simpa using alookup_adel_self st.epCache uid
  · rw [hred, hstate]
    simp [List.mem_filter]

/-- Witness for the amended C3 at the concrete input of the
counterexample: response 410, both cache entries gone, row rebound. -/
theorem c3_witness :
    (endpointHandler
      ⟨["redis1", "redis2"], fun _ => true,
       .connError "redis://redis1/chan", false, none⟩
      "application/json" "e1"
      ⟨[("e1", "redis://redis1/chan")], ["redis://redis1/chan"],
       [("e1", ⟨"e1", some "VK", none, some "redis://redis1/chan", none⟩)]⟩).1
      = .gone ∧
    alookup (endpointHandler
      ⟨["redis1", "redis2"], fun _ => true,
       .connError "redis://redis1/chan", false, none⟩
      "application/json" "e1"
      ⟨[("e1", "redis://redis1/chan")], ["redis://redis1/chan"],
       [("e1", ⟨"e1", some "VK", none, some "redis://redis1/chan", none⟩)]⟩).2.1.epCache
      "e1" = none := by
  have h := c3_rotation_amended
    ⟨["redis1", "redis2"], fun _ => true,
     .connError "redis://redis1/chan", false, none⟩
    "application/json" "e1" "redis://redis1/chan"
    ⟨[("e1", "redis://redis1/chan")], ["redis://redis1/chan"],
     [("e1", ⟨"e1", some "VK", none, some "redis://redis1/chan", none⟩)]⟩
    ⟨"e1", some "VK", none, some "redis://redis1/chan", none⟩
    "redis://redis1/chan" "redis://redis1"
    (by decide) (by decide) (by decide) (by decide) (by decide) (by decide)
  exact ⟨h.1, h.2.2.1⟩

/-!
## ACK correlation (C4)
-/

/-- The wait loop can only return True through a script event that is a
received response matching the request id with a true status. -/
theorem ackLoop_true_needs_matching_ack :
    ∀ (expireAt : Nat) (reqId : String)
      (events : List (Nat × WaitEvent)) (now : Nat),
      ackLoop expireAt reqId now events = .res true →
      ∃ u s, (u, WaitEvent.got s) ∈ events ∧ ackMatches reqId s = true ∧
        s.status = some true := by
  intro expireAt reqId events
  induction events with
  | nil =>
    intro now h
    by_cases hle : now ≤ expireAt <;> simp [ackLoop, hle] at h
  | cons hd rest ih =>
    obtain ⟨t, ev⟩ := hd
    intro now h
    by_cases hle : now ≤ expireAt
    · cases ev with
      | got r =>
        cases hm : ackMatches reqId r with
        | true =>
          simp only [ackLoop, if_pos hle, hm, if_true] at h
          have hst : (r.status == some true) = true := by
            cases hb : (r.status == some true) with
            | true => rfl
            | false => rw [hb] at h; exact absurd h (by simp)
          exact ⟨t, r, by simp, hm, by simpa using hst⟩
        | false =>
          simp only [ackLoop, if_pos hle, hm, Bool.false_eq_true,
            if_false] at h
          obtain ⟨u, s, hmem, hms, hstat⟩ := ih t h
          exact ⟨u, s, List.mem_cons_of_mem _ hmem, hms, hstat⟩
      | chClosed => simp [ackLoop, hle] at h
      | rwTimeout => simp [ackLoop, hle] at h
      | connErr => simp [ackLoop, hle] at h
    · simp [ackLoop, hle] at h

/-- C4: within the deadline, a received response that does not match the
request id does not terminate the wait - the loop goes on over the rest of
the script; a matching response terminates it with result
`status is True`; and the loop yields True only if the script contains a
matching ACK with a true status. -/
theorem c4_ack_correlation :
    ∀ (expireAt now t : Nat) (reqId : String) (r : AckResponse)
      (rest events : List (Nat × WaitEvent)),
      (now ≤ expireAt → ackMatches reqId r = false →
        ackLoop expireAt reqId now ((t, .got r) :: rest) =
          ackLoop expireAt reqId t rest) ∧
      (now ≤ expireAt → ackMatches reqId r = true →
        ackLoop expireAt reqId now ((t, .got r) :: rest) =
          .res (r.status == some true)) ∧
      (ackLoop expireAt reqId now events = .res true →
        ∃ u s, (u, WaitEvent.got s) ∈ events ∧ ackMatches reqId s = true ∧
          s.status = some true) := by
  intro expireAt now t reqId r rest events
  refine ⟨?_, ?_, ?_⟩
  · intro hle hm
    simp [ackLoop, hle, hm]
  · intro hle hm
    simp [ackLoop, hle, hm]
  · exact ackLoop_true_needs_matching_ack expireAt reqId events now

/-- Witness for C4 at a concrete script: a stale ACK carrying a foreign id
is skipped and the following matching ACK terminates the wait with True. -/
theorem c4_witness :
    ackLoop 10 "a" 0
      [(1, .got ⟨some ACK_MSG_TYPE, "b", some true⟩),
       (2, .got ⟨some ACK_MSG_TYPE, "a", some true⟩)] = .res true := by
  have h1 := (c4_ack_correlation 10 0 1 "a"
    ⟨some ACK_MSG_TYPE, "b", some true⟩
    [(2, .got ⟨some ACK_MSG_TYPE, "a", some true⟩)] []).1
    (by decide) (by decide)
  have h2 := (c4_ack_correlation 10 1 2 "a"
    ⟨some ACK_MSG_TYPE, "a", some true⟩ [] []).2.1
    (by decide) (by decide)
  rw [h1, h2]
  decide

/-!
## Broker selection (C6)
-/

theorem addrOf_inj (a b : String) (h : addrOf a = addrOf b) : a = b := by
  have h2 := congrArg String.data h
  simp only [addrOf, String.data_append] at h2
  exact String.ext (List.append_cancel_left h2)

theorem firstLive_eq_none_iff (live : String → Bool) (l : List String) :
    firstLive live l = none ↔ ∀ i ∈ l, live (addrOf i) = false := by
  induction l with
  | nil => simp [firstLive]
  | cons i rest ih =>
    by_cases hl : live (addrOf i) = true
    · simp [firstLive, hl]
    · have hl' : live (addrOf i) = false := by simpa using hl
      simp [firstLive, hl', ih]

theorem firstLive_spec (live : String → Bool) :
    ∀ (l : List String) (a : String),
      firstLive live l = some a →
      live a = true ∧ ∃ l1 i l2, l = l1 ++ i :: l2 ∧ a = addrOf i ∧
        ∀ j ∈ l1, live (addrOf j) = false := by
  intro l
  induction l with
  | nil => intro a h; simp [firstLive] at h
  | cons i rest ih =>
    intro a h
    by_cases hl : live (addrOf i) = true
    · simp only [firstLive, hl, if_true, Option.some.injEq] at h
      subst h
      exact ⟨hl, [], i, rest, rfl, rfl, by simp⟩
    · have hl' : live (addrOf i) = false := by simpa using hl
      simp only [firstLive, hl', Bool.false_eq_true, if_false] at h
      obtain ⟨hla, l1, j, l2, heq, ha, hdead⟩ := ih a h
      refine ⟨hla, i :: l1, j, l2, by simp [heq], ha, ?_⟩
      intro x hx
      rcases List.mem_cons.mp hx with hx | hx
      · subst hx; exact hl'
      · exact hdead x hx

theorem firstLive_append_single (live : String → Bool) :
    ∀ (l1 : List String) (u : String),
      firstLive live (l1 ++ [u]) = some (addrOf u) →
      (∀ j ∈ l1, live (addrOf j) = false) ∨
        ∃ j ∈ l1, addrOf j = addrOf u := by
  intro l1
  induction l1 with
  | nil => intro u h; left; simp
  | cons i rest ih =>
    intro u h
    by_cases hl : live (addrOf i) = true
    · simp only [List.cons_append, firstLive, hl, if_true,
        Option.some.injEq] at h
      right
      exact ⟨i, by simp, h⟩
    · have hl' : live (addrOf i) = false := by simpa using hl
      simp only [List.cons_append, firstLive, hl', Bool.false_eq_true,
        if_false] at h
      rcases ih u h with hdead | ⟨j, hj, hju⟩
      · left
        intro x hx
        rcases List.mem_cons.mp hx with hx | hx
        · subst hx; exact hl'
        · exact hdead x hx
      · right
        exact ⟨j, List.mem_cons_of_mem _ hj, hju⟩

theorem mem_reorderUnwanted (unw : Option String) (items : List String)
    (a : String) : a ∈ reorderUnwanted unw items ↔ a ∈ items := by
  cases unw with
  | none => simp [reorderUnwanted]
  | some u =>
    by_cases hu : u = ""
    · simp [reorderUnwanted, hu]
    · by_cases hm : u ∈ items
      · simp only [reorderUnwanted]
        rw [if_pos (by simp [hu, hm])]
        constructor
        · intro h
          rcases List.mem_append.mp h with h | h
          · exact (List.mem_filter.mp h).1
          · have ha : a = u := by simpa using h
            rw [ha]; exact hm
        · intro h
          by_cases hau : a = u
          · subst hau
            exact List.mem_append.mpr (Or.inr (by simp))
          · exact List.mem_append.mpr
              (Or.inl (List.mem_filter.mpr ⟨h, by simp [hau]⟩))
      · simp [reorderUnwanted, hu, hm]

theorem reorderUnwanted_eq_tail (u : String) (items : List String)
    (hu : ¬ u = "") (hm : u ∈ items) :
    reorderUnwanted (some u) items =
      items.filter (fun i => !(i = u)) ++ [u] := by
  simp only [reorderUnwanted]
  rw [if_pos (by simp [hu, hm])]

/-- C6: over any permutation of the configured server list,
`choice_server_address` fails exactly when no candidate passes the probe;
a returned address is a live prefixed candidate that is first in the probe
order (everything probed before it failed); and when the stripped unwanted
value is present in the list, the probe order is the permutation with every
occurrence of the unwanted value moved to the tail, so the unwanted broker
is returned only when every other configured broker fails the probe. -/
theorem c6_broker_selection :
    ∀ (servers shuffled : List String) (live : String → Bool)
      (unwanted : Option String),
      shuffled.Perm servers →
      (choiceServerAddress shuffled live unwanted = none ↔
        ∀ i ∈ servers, live (addrOf i) = false) ∧
      (∀ a, choiceServerAddress shuffled live unwanted = some a →
        live a = true ∧ ∃ l1 i l2,
          reorderUnwanted (stripUnwanted unwanted) shuffled = l1 ++ i :: l2 ∧
          a = addrOf i ∧ i ∈ servers ∧
          ∀ j ∈ l1, live (addrOf j) = false) ∧
      (∀ u, stripUnwanted unwanted = some u → ¬ u = "" → u ∈ shuffled →
        reorderUnwanted (stripUnwanted unwanted) shuffled =
          shuffled.filter (fun i => !(i = u)) ++ [u] ∧
        (choiceServerAddress shuffled live unwanted = some (addrOf u) →
          ∀ j ∈ servers, ¬ j = u → live (addrOf j) = false)) := by
  intro servers shuffled live unwanted hperm
  refine ⟨?_, ?_, ?_⟩
  · unfold choiceServerAddress
    rw [firstLive_eq_none_iff]
    constructor
    · intro h i hi
      exact h i ((mem_reorderUnwanted _ _ _).mpr (hperm.mem_iff.mpr hi))
    · intro h i hi
      exact h i (hperm.mem_iff.mp ((mem_reorderUnwanted _ _ _).mp hi))
  · intro a ha
    obtain ⟨hla, l1, i, l2, heq, hai, hdead⟩ := firstLive_spec live _ a ha
    refine ⟨hla, l1, i, l2, heq, hai, ?_, hdead⟩
    have hmem : i ∈ reorderUnwanted (stripUnwanted unwanted) shuffled := by
      rw [heq]
      exact List.mem_append.mpr (Or.inr (List.mem_cons_self _ _))
    exact hperm.mem_iff.mp ((mem_reorderUnwanted _ _ _).mp hmem)
  · intro u hu hune hmem
    have htail := reorderUnwanted_eq_tail u shuffled hune hmem
    refine ⟨by rw [hu]; exact htail, ?_⟩
    intro hchoice j hj hju
    unfold choiceServerAddress at hchoice
    rw [hu, htail] at hchoice
    rcases firstLive_append_single live _ u hchoice with hdead | ⟨x, hx, hxu⟩
    · have hjs : j ∈ shuffled := hperm.mem_iff.mpr hj
      exact hdead j (List.mem_filter.mpr ⟨hjs, by simp [hju]⟩)
    · have hxeq : x = u := addrOf_inj _ _ hxu
      have hxf := (List.mem_filter.mp hx).2
      rw [hxeq] at hxf
      simp at hxf

/-- Witness for C6 at a concrete configuration: with `redis1` unwanted but
the only live broker, it is still selected (sole survivor), and the other
candidate indeed fails the probe. -/
theorem c6_witness :
    choiceServerAddress ["redis1", "redis2"]
      (fun a => a == "redis://redis1") (some "redis://redis1") =
      some (addrOf "redis1") ∧
    (fun a => a == "redis://redis1") (addrOf "redis2") = false := by
  have h := (c6_broker_selection ["redis1", "redis2"] ["redis1", "redis2"]
    (fun a => a == "redis://redis1") (some "redis://redis1")
    (List.Perm.refl _)).2.2 "redis1" (by decide) (by decide) (by decide)
  exact ⟨by decide, h.2 (by decide) "redis2" (by decide) (by decide)⟩

end Mediator
